import Mathlib

/-!
Verification of the core of the Pomodoro timer (src/lib.rs): the
cycle state machine `StateTracker` and the countdown `Clock`.

The Rust source is embedded shallowly:
* `current_order : Option<i32>` becomes `Option Int`;
* `Clock.minutes`, `Clock.seconds` are `u32`, modelled as `Nat` (every value
  the setters produce is below 60, far from the `u32` range; theorems whose
  inputs are raw `u32` arguments carry the `< 2^32` bound explicitly);
* `SystemTime` timestamps are opaque to the control logic and are modelled
  as `Nat`;
* the u32 subtraction `time_in_ms -= 1000`, which panics on underflow,
  is modelled by `Option`: `none` is the underflow panic;
* the side effects of `countdown` (sleeping and drawing) carry no state,
  so `countdown` returns the final clock together with the number of
  decrement-and-render iterations performed, or `none` when an iteration
  underflows. Orchestration methods that run countdowns on locally
  constructed clocks (`start_work`, `short_break`, `long_break`,
  `start_break`) additionally return the list of clocks as initialized
  when their countdowns start, so that theorems can speak about which
  clock each phase runs.
-/

/-- Rust `enum PomodoroState { Working, ShortBreak, LongBreak, None }`. -/
inductive PomodoroState where
  | Working
  | ShortBreak
  | LongBreak
  | None
  deriving DecidableEq

/-- Rust `struct StateTracker` (lib.rs lines 30-35). -/
structure StateTracker where
  current_order : Option Int
  current_state : PomodoroState
  started_at : Option Nat
  deriving DecidableEq

/-- Rust `StateTracker::new` (lib.rs lines 38-44). -/
def StateTracker.new : StateTracker :=
  { current_order := none
    current_state := PomodoroState.None
    started_at := none }

/-- Rust `StateTracker::increment_cycle` (lib.rs lines 46-53):
`Some(num) if num < 4 => Some(num + 1), None => Some(1), _ => None`. -/
def StateTracker.increment_cycle (t : StateTracker) : StateTracker :=
  let new_order : Option Int :=
    match t.current_order with
    | some num => if num < 4 then some (num + 1) else none
    | none => some 1
  { t with current_order := new_order }

/-- Rust `StateTracker::restart_cycle` (lib.rs lines 55-57). -/
def StateTracker.restart_cycle (t : StateTracker) : StateTracker :=
  { t with current_order := none }

/-- Rust `StateTracker::get_order` (lib.rs lines 59-61). -/
def StateTracker.get_order (t : StateTracker) : Option Int :=
  t.current_order

/-- Rust `StateTracker::set_break` (lib.rs lines 96-105):
`Some(_x @ 0..=3) => ShortBreak, Some(_x @ 4) => LongBreak,
Some(_) => None, None => None`. -/
def StateTracker.set_break (t : StateTracker) : StateTracker :=
  let break_state : PomodoroState :=
    match t.current_order with
    | some x =>
        if 0 ≤ x ∧ x ≤ 3 then PomodoroState.ShortBreak
        else if x = 4 then PomodoroState.LongBreak
        else PomodoroState.None
    | none => PomodoroState.None
  { t with current_state := break_state }

/-- Rust `struct Clock { minutes: u32, seconds: u32 }` (lib.rs lines 121-124). -/
structure Clock where
  minutes : Nat
  seconds : Nat
  deriving DecidableEq

/-- Rust `Clock::new` (lib.rs lines 127-132). -/
def Clock.new : Clock :=
  { minutes := 0, seconds := 0 }

/-- Rust `Clock::set_time_ms` (lib.rs lines 134-137). -/
def Clock.set_time_ms (c : Clock) (ms : Nat) : Clock :=
  { c with
    minutes := (ms / (1000 * 60)) % 60
    seconds := (ms / 1000) % 60 }

/-- Rust `Clock::set_time_minutes` (lib.rs lines 139-141). -/
def Clock.set_time_minutes (c : Clock) (minutes : Nat) : Clock :=
  c.set_time_ms (minutes * 60000)

/-- Rust `Clock::get_ms_from_time` (lib.rs lines 149-151). -/
def Clock.get_ms_from_time (c : Clock) : Nat :=
  c.minutes * 60000 + c.seconds * 1000

/-- Rust `Clock::decrement_one_second` (lib.rs lines 143-147). The u32
subtraction `time_in_ms -= 1000` panics when `time_in_ms < 1000`;
the panic is `none`. -/
def Clock.decrement_one_second (c : Clock) : Option Clock :=
  let time_in_ms := c.get_ms_from_time
  if time_in_ms < 1000 then none
  else some (c.set_time_ms (time_in_ms - 1000))

/-- Rust's `{:02}` format specifier on an unsigned value: zero-pad to a
minimum width of two digits. -/
def pad2 (n : Nat) : String :=
  if n < 10 then "0" ++ toString n else toString n

/-- Rust `Clock::get_time` (lib.rs lines 153-155): `format!("{:02}:{:02}")`. -/
def Clock.get_time (c : Clock) : String :=
  pad2 c.minutes ++ ":" ++ pad2 c.seconds

/-- Rust `Clock::countdown` (lib.rs lines 178-197): `loop { sleep(1s);
decrement_one_second; draw_work_clock; flush; if get_ms_from_time == 0
break }`. Sleeping and drawing carry no state; the result is the final
clock with the number of decrement-and-render iterations, or `none` if a
decrement underflows (panic). -/
def Clock.countdown (c : Clock) : Option (Clock × Nat) :=
  match h : c.decrement_one_second with
  | none => none
  | some c2 =>
    if c2.get_ms_from_time = 0 then some (c2, 1)
    else
      match c2.countdown with
      | none => none
      | some p => some (p.1, p.2 + 1)
termination_by c.get_ms_from_time
decreasing_by
  simp only [Clock.decrement_one_second, Clock.get_ms_from_time,
    Clock.set_time_ms] at h ⊢
  split at h
  · exact absurd h (by simp)
  · simp only [Option.some.injEq] at h
    subst h
    simp only
    omega

/-- Rust `StateTracker::short_break` (lib.rs lines 84-94): builds a fresh
clock, sets it to 5 minutes and runs its countdown. `self` is untouched;
the returned list records the clock as initialized when its countdown
starts. -/
def StateTracker.short_break (t : StateTracker) : StateTracker × List Clock :=
  let clock := Clock.new.set_time_minutes 5
  (t, [clock])

/-- Rust `StateTracker::long_break` (lib.rs lines 90-94): fresh clock, 30
minutes, countdown. -/
def StateTracker.long_break (t : StateTracker) : StateTracker × List Clock :=
  let clock := Clock.new.set_time_minutes 30
  (t, [clock])

/-- Rust `StateTracker::start_break` (lib.rs lines 76-82): dispatches on
`current_state`; no-op for `Working` and `None`. -/
def StateTracker.start_break (t : StateTracker) : StateTracker × List Clock :=
  match t.current_state with
  | PomodoroState.ShortBreak => t.short_break
  | PomodoroState.LongBreak => t.long_break
  | _ => (t, [])

/-- Rust `StateTracker::start_work` (lib.rs lines 63-74): records the start
timestamp, builds a fresh clock, sets state to `Working`, increments the
cycle, runs a 25-minute countdown, computes the break phase and runs it.
Returns the final tracker and the clocks run, in order. -/
def StateTracker.start_work (t : StateTracker) (now : Nat) : StateTracker × List Clock :=
  let t1 := { t with started_at := some now }
  let clock := Clock.new
  let t2 := { t1 with current_state := PomodoroState.Working }
  let t3 := t2.increment_cycle
  let clock := clock.set_time_minutes 25
  let t4 := t3.set_break
  let r := t4.start_break
  (r.1, clock :: r.2)

/-- Tracker states reachable from `StateTracker::new` through any
sequence of the tracker's state-changing operations: `increment_cycle`,
`restart_cycle`, `set_break` and `start_work` (with an arbitrary start
timestamp). -/
inductive ReachableTracker : StateTracker → Prop where
  | base : ReachableTracker StateTracker.new
  | increment (t : StateTracker) :
      ReachableTracker t → ReachableTracker t.increment_cycle
  | restart (t : StateTracker) :
      ReachableTracker t → ReachableTracker t.restart_cycle
  | setBreak (t : StateTracker) :
      ReachableTracker t → ReachableTracker t.set_break
  | work (t : StateTracker) (now : Nat) :
      ReachableTracker t → ReachableTracker (t.start_work now).1

/-- C1 counterexample: the claimed rule says a position that is neither
unset nor in [1,3] — in particular 0 — resets to unset, but
`increment_cycle` on position 0 yields position 1 (the Rust guard is
`num < 4`, not `1 <= num && num <= 3`). -/
theorem increment_cycle_zero_cex :
    (StateTracker.increment_cycle
      { current_order := some 0
        current_state := PomodoroState.None
        started_at := none }).current_order = some 1 ∧
    ¬ (StateTracker.increment_cycle
      { current_order := some 0
        current_state := PomodoroState.None
        started_at := none }).current_order = none := by
  decide

/-- C1 (amended): `increment_cycle` maps an unset position to 1, a set
position `k < 4` to `k + 1`, and a set position `k ≥ 4` to unset.
Starting from unset, five consecutive calls yield positions
1, 2, 3, 4, unset, and a sixth call yields 1 again. -/
theorem increment_cycle_rule (t : StateTracker) :
    (t.current_order = none → t.increment_cycle.current_order = some 1) ∧
    (∀ k : Int, t.current_order = some k → k < 4 →
      t.increment_cycle.current_order = some (k + 1)) ∧
    (∀ k : Int, t.current_order = some k → 4 ≤ k →
      t.increment_cycle.current_order = none) ∧
    (StateTracker.new.increment_cycle.current_order = some 1 ∧
     StateTracker.new.increment_cycle.increment_cycle.current_order = some 2 ∧
     (StateTracker.new.increment_cycle.increment_cycle.increment_cycle
       ).current_order = some 3 ∧
     (StateTracker.new.increment_cycle.increment_cycle.increment_cycle.increment_cycle
       ).current_order = some 4 ∧
     (StateTracker.new.increment_cycle.increment_cycle.increment_cycle.increment_cycle.increment_cycle
       ).current_order = none ∧
     (StateTracker.new.increment_cycle.increment_cycle.increment_cycle.increment_cycle.increment_cycle.increment_cycle
       ).current_order = some 1) := by
  refine ⟨?_, ?_, ?_, by decide⟩
  · intro h
    simp [StateTracker.increment_cycle, h]
  · intro k hk hlt
    simp [StateTracker.increment_cycle, hk, hlt]
  · intro k hk hge
    simp [StateTracker.increment_cycle, hk]
    omega

/-- Witness for `increment_cycle_rule` at the fresh tracker. -/
theorem increment_cycle_rule_witness :
    StateTracker.new.increment_cycle.current_order = some 1 :=
  (increment_cycle_rule StateTracker.new).1 rfl

/-- C2: `set_break` maps position 1–3 to `ShortBreak`, position 4 to
`LongBreak`, and an unset position to `None`, for every tracker state. -/
theorem set_break_phase_map (t : StateTracker) :
    (∀ k : Int, t.current_order = some k → 1 ≤ k → k ≤ 3 →
      t.set_break.current_state = PomodoroState.ShortBreak) ∧
    (t.current_order = some 4 →
      t.set_break.current_state = PomodoroState.LongBreak) ∧
    (t.current_order = none →
      t.set_break.current_state = PomodoroState.None) := by
  refine ⟨?_, ?_, ?_⟩
  · intro k hk h1 h3
    have hc : (0 : Int) ≤ k ∧ k ≤ 3 := ⟨by omega, h3⟩
    simp [StateTracker.set_break, hk, hc]
  · intro hk
    norm_num [StateTracker.set_break, hk]
  · intro hk
    simp [StateTracker.set_break, hk]

/-- Witness for `set_break_phase_map` at positions 2, 4 and unset. -/
theorem set_break_phase_map_witness :
    (StateTracker.mk (some 2) PomodoroState.Working none
      ).set_break.current_state = PomodoroState.ShortBreak ∧
    (StateTracker.mk (some 4) PomodoroState.Working none
      ).set_break.current_state = PomodoroState.LongBreak ∧
    StateTracker.new.set_break.current_state = PomodoroState.None :=
  ⟨(set_break_phase_map _).1 2 rfl (by decide) (by decide),
   (set_break_phase_map _).2.1 rfl,
   (set_break_phase_map _).2.2 rfl⟩

/-- C8: `restart_cycle` always yields an unset position, whatever the
prior tracker state. -/
theorem restart_cycle_unsets_position (t : StateTracker) :
    t.restart_cycle.current_order = none :=
  rfl

/-- C10: `start_break` never modifies the tracker: `current_order`,
`current_state` and `started_at` are unchanged in every state (the break
runners only construct and drive local clocks). -/
theorem start_break_frame (t : StateTracker) :
    t.start_break.1.current_order = t.current_order ∧
    t.start_break.1.current_state = t.current_state ∧
    t.start_break.1.started_at = t.started_at := by
  cases h : t.current_state <;>
    simp [StateTracker.start_break, StateTracker.short_break,
      StateTracker.long_break, h]

/-- Rust `{:02}` renders every value below 60 with exactly two characters. -/
theorem pad2_length_of_lt_60 : ∀ n : Nat, n < 60 → (pad2 n).length = 2 := by
  decide

/-- C4: on every clock, `set_time_ms ms` followed by `get_time` yields
`MM:SS` where `MM = (ms / 60000) % 60` and `SS = (ms / 1000) % 60`, each
zero-padded to two digits (the whole string has five characters); in
particular any `ms ≥ 3600000` has its minutes truncated modulo 60. -/
theorem set_time_ms_get_time (c : Clock) (ms : Nat) (hms : ms < 2 ^ 32) :
    (c.set_time_ms ms).get_time =
      pad2 (ms / 60000 % 60) ++ ":" ++ pad2 (ms / 1000 % 60) ∧
    ((c.set_time_ms ms).get_time).length = 5 := by
  have he : (c.set_time_ms ms).get_time =
      pad2 (ms / 60000 % 60) ++ ":" ++ pad2 (ms / 1000 % 60) := by
    simp [Clock.get_time, Clock.set_time_ms]
  have h1 : (pad2 (ms / 60000 % 60)).length = 2 :=
    pad2_length_of_lt_60 _ (Nat.mod_lt _ (by omega))
  have h2 : (pad2 (ms / 1000 % 60)).length = 2 :=
    pad2_length_of_lt_60 _ (Nat.mod_lt _ (by omega))
  refine ⟨he, ?_⟩
  rw [he, String.length_append, String.length_append, h1, h2]
  rfl

/-- Witness for `set_time_ms_get_time` at 3661000 ms (1 h 1 min 1 s). -/
theorem set_time_ms_get_time_witness :
    (Clock.new.set_time_ms 3661000).get_time =
      pad2 (3661000 / 60000 % 60) ++ ":" ++ pad2 (3661000 / 1000 % 60) ∧
    ((Clock.new.set_time_ms 3661000).get_time).length = 5 :=
  set_time_ms_get_time Clock.new 3661000 (by norm_num)

/-- C5: `decrement_one_second` fails (u32 underflow) exactly on a clock
whose remaining time is zero; on every clock state (whole minutes and
seconds, 0–59 each, per the data model) with at least 1000 ms remaining
it succeeds and reduces the millisecond total by exactly 1000. -/
theorem decrement_one_second_spec (c : Clock)
    (hm : c.minutes < 60) (hs : c.seconds < 60) :
    (c.decrement_one_second = none ↔ c.get_ms_from_time = 0) ∧
    (1000 ≤ c.get_ms_from_time →
      ∃ c2, c.decrement_one_second = some c2 ∧
        c2.get_ms_from_time = c.get_ms_from_time - 1000) := by
  constructor
  · simp only [Clock.decrement_one_second]
    split
    · simp only [true_iff]
      simp only [Clock.get_ms_from_time] at *
      omega
    · simp only [iff_false, reduceCtorEq, false_iff]
      simp only [Clock.get_ms_from_time] at *
      omega
  · intro h
    refine ⟨c.set_time_ms (c.get_ms_from_time - 1000), ?_, ?_⟩
    · simp only [Clock.decrement_one_second]
      rw [if_neg (by omega)]
    · simp only [Clock.set_time_ms, Clock.get_ms_from_time] at *
      omega

/-- Witness for `decrement_one_second_spec` at the 25-minute clock. -/
theorem decrement_one_second_spec_witness :
    ((Clock.mk 25 0).decrement_one_second = none ↔
      (Clock.mk 25 0).get_ms_from_time = 0) ∧
    (1000 ≤ (Clock.mk 25 0).get_ms_from_time →
      ∃ c2, (Clock.mk 25 0).decrement_one_second = some c2 ∧
        c2.get_ms_from_time = (Clock.mk 25 0).get_ms_from_time - 1000) :=
  decrement_one_second_spec (Clock.mk 25 0) (by decide) (by decide)

/-- C9: for every whole-second millisecond count below one hour,
`set_time_ms` followed by `get_ms_from_time` returns the count exactly:
the minutes/seconds representation loses no information there. -/
theorem set_time_ms_roundtrip (c : Clock) (ms : Nat)
    (h1 : ms % 1000 = 0) (h2 : ms < 3600000) :
    (c.set_time_ms ms).get_ms_from_time = ms := by
  simp only [Clock.set_time_ms, Clock.get_ms_from_time]
  omega

/-- Witness for `set_time_ms_roundtrip` at 1,234,000 ms. -/
theorem set_time_ms_roundtrip_witness :
    (Clock.new.set_time_ms 1234000).get_ms_from_time = 1234000 :=
  set_time_ms_roundtrip Clock.new 1234000 (by norm_num) (by norm_num)

/-- The millisecond total stored by `set_time_ms`: the input truncated to
its whole-second count modulo one hour. -/
theorem get_ms_set_time (c : Clock) (m : Nat) :
    (c.set_time_ms m).get_ms_from_time = 1000 * (m / 1000 % 3600) := by
  simp only [Clock.set_time_ms, Clock.get_ms_from_time]
  omega

/-- A countdown whose first decrement underflows panics. -/
theorem countdown_underflow (c : Clock) (h : c.decrement_one_second = none) :
    c.countdown = none := by
  rw [Clock.countdown]
  split
  · rfl
  · rename Clock.decrement_one_second _ = _ => heq
    rw [h] at heq
    exact absurd heq (by simp)

/-- A countdown whose decrement reaches zero stops after that iteration. -/
theorem countdown_last (c c2 : Clock) (h : c.decrement_one_second = some c2)
    (h0 : c2.get_ms_from_time = 0) : c.countdown = some (c2, 1) := by
  rw [Clock.countdown]
  split
  · rename Clock.decrement_one_second _ = _ => heq
    rw [h] at heq
    exact absurd heq (by simp)
  · rename Clock.decrement_one_second _ = _ => heq
    rw [h] at heq
    injection heq with heq2
    subst heq2
    rw [if_pos h0]

/-- A countdown whose decrement leaves a nonzero remainder loops. -/
theorem countdown_step (c c2 : Clock) (h : c.decrement_one_second = some c2)
    (h0 : c2.get_ms_from_time ≠ 0) :
    c.countdown = match c2.countdown with
      | none => none
      | some p => some (p.1, p.2 + 1) := by
  rw [Clock.countdown]
  split
  · rename Clock.decrement_one_second _ = _ => heq
    rw [h] at heq
    exact absurd heq (by simp)
  · rename Clock.decrement_one_second _ = _ => heq
    rw [h] at heq
    injection heq with heq2
    subst heq2
    rw [if_neg h0]

/-- Minutes produced by the setter are below 60. -/
theorem set_time_ms_minutes_lt (c : Clock) (m : Nat) :
    (c.set_time_ms m).minutes < 60 :=
  Nat.mod_lt _ (by norm_num)

/-- Seconds produced by the setter are below 60. -/
theorem set_time_ms_seconds_lt (c : Clock) (m : Nat) :
    (c.set_time_ms m).seconds < 60 :=
  Nat.mod_lt _ (by norm_num)

/-- A countdown from a well-formed clock holding `N ≥ 1` whole seconds
performs exactly `N` iterations and ends on the zero clock. -/
theorem countdown_of_get_ms : ∀ N : Nat, ∀ c : Clock,
    c.minutes < 60 → c.seconds < 60 →
    c.get_ms_from_time = 1000 * N → 1 ≤ N →
    c.countdown = some (Clock.mk 0 0, N) := by
  intro N
  induction N with
  | zero => intro c _ _ _ h1; omega
  | succ N ih =>
    intro c hm hs hms _
    have hb : N ≤ 3598 := by
      simp only [Clock.get_ms_from_time] at hms
      omega
    have hsub : 1000 * (N + 1) - 1000 = 1000 * N := by omega
    have hdec : c.decrement_one_second = some (c.set_time_ms (1000 * N)) := by
      simp only [Clock.decrement_one_second, hms]
      rw [if_neg (by omega), hsub]
    by_cases hN : N = 0
    · subst hN
      have hzero : (c.set_time_ms (1000 * 0)).get_ms_from_time = 0 := by
        rw [get_ms_set_time]
      have hfin := countdown_last c _ hdec hzero
      have hc0 : c.set_time_ms (1000 * 0) = Clock.mk 0 0 := rfl
      rw [hc0] at hfin
      exact hfin
    · have hN1 : 1 ≤ N := by omega
      have hms2 : (c.set_time_ms (1000 * N)).get_ms_from_time = 1000 * N := by
        rw [get_ms_set_time]
        have hdiv : 1000 * N / 1000 = N := by omega
        rw [hdiv, Nat.mod_eq_of_lt (by omega)]
      have hne : (c.set_time_ms (1000 * N)).get_ms_from_time ≠ 0 := by
        rw [hms2]
        omega
      have hrec := ih (c.set_time_ms (1000 * N))
        (set_time_ms_minutes_lt c _) (set_time_ms_seconds_lt c _) hms2 hN1
      rw [countdown_step c _ hdec hne, hrec]

/-- C3 counterexample: a countdown started on a clock initialized to 0
whole seconds does not perform 0 decrement steps and stop at zero — its
very first decrement underflows (u32 panic), because the loop decrements
before it checks the zero condition. -/
theorem countdown_zero_cex :
    (Clock.new.set_time_ms (1000 * 0)).countdown = none ∧
    (Clock.new.set_time_ms (1000 * 0)).decrement_one_second = none := by
  constructor
  · exact countdown_underflow _ (by decide)
  · decide

/-- C3 (amended): for every `N` with `1 ≤ N ≤ 3599`, a countdown started
on a clock initialized to `N` whole seconds performs exactly `N`
decrement-and-render iterations and terminates with
`get_ms_from_time = 0`; the run returns `some`, i.e. no decrement ever
underflows, so the remaining value is never negative. (`N = 0` underflows
immediately; `N ≥ 3600` is not representable by the setter, which stores
minutes modulo 60.) -/
theorem countdown_exact_steps (N : Nat) (h1 : 1 ≤ N) (h2 : N ≤ 3599) :
    ∃ cf, (Clock.new.set_time_ms (1000 * N)).countdown = some (cf, N) ∧
      cf.get_ms_from_time = 0 := by
  refine ⟨Clock.mk 0 0, ?_, rfl⟩
  apply countdown_of_get_ms N _ (set_time_ms_minutes_lt _ _)
    (set_time_ms_seconds_lt _ _) ?_ h1
  rw [get_ms_set_time]
  have hdiv : 1000 * N / 1000 = N := by omega
  rw [hdiv, Nat.mod_eq_of_lt (by omega)]

/-- Witness for `countdown_exact_steps` at a 2-second clock. -/
theorem countdown_exact_steps_witness :
    ∃ cf, (Clock.new.set_time_ms (1000 * 2)).countdown = some (cf, 2) ∧
      cf.get_ms_from_time = 0 :=
  countdown_exact_steps 2 (by decide) (by decide)

/-- The tracker component of `start_break` is the input tracker itself. -/
theorem start_break_fst (t : StateTracker) : t.start_break.1 = t := by
  cases h : t.current_state <;>
    simp [StateTracker.start_break, StateTracker.short_break,
      StateTracker.long_break, h]

/-- The position after `start_work` is the incremented position. -/
theorem start_work_order (t : StateTracker) (now : Nat) :
    (t.start_work now).1.current_order = t.increment_cycle.current_order := by
  simp only [StateTracker.start_work]
  rw [start_break_fst]
  rfl

/-- C6: on a tracker with unset position, `start_work` advances the
position to 1, selects `ShortBreak`, and runs the work clock (25 min)
followed by a fresh break clock initialized to exactly 5 minutes,
formatted "05:00"; when the work interval leaves the position at 4
(prior position 3), it selects `LongBreak` and the fresh break clock is
initialized to exactly 30 minutes, formatted "30:00". -/
theorem start_work_end_to_end (t : StateTracker) (now : Nat) :
    (t.current_order = none →
      (t.start_work now).1.current_order = some 1 ∧
      (t.start_work now).1.current_state = PomodoroState.ShortBreak ∧
      (t.start_work now).2 =
        [Clock.new.set_time_minutes 25, Clock.new.set_time_minutes 5] ∧
      (Clock.new.set_time_minutes 5).get_time = "05:00") ∧
    (t.current_order = some 3 →
      (t.start_work now).1.current_order = some 4 ∧
      (t.start_work now).1.current_state = PomodoroState.LongBreak ∧
      (t.start_work now).2 =
        [Clock.new.set_time_minutes 25, Clock.new.set_time_minutes 30] ∧
      (Clock.new.set_time_minutes 30).get_time = "30:00") := by
  constructor
  · intro h
    refine ⟨?_, ?_, ?_, by decide⟩ <;>
      norm_num [StateTracker.start_work, StateTracker.increment_cycle,
        StateTracker.set_break, StateTracker.start_break,
        StateTracker.short_break, StateTracker.long_break, h]
  · intro h
    refine ⟨?_, ?_, ?_, by decide⟩ <;>
      norm_num [StateTracker.start_work, StateTracker.increment_cycle,
        StateTracker.set_break, StateTracker.start_break,
        StateTracker.short_break, StateTracker.long_break, h]

/-- Witness for `start_work_end_to_end` at the fresh tracker and at a
tracker holding position 3. -/
theorem start_work_end_to_end_witness :
    ((StateTracker.new.start_work 0).1.current_order = some 1 ∧
     (StateTracker.new.start_work 0).1.current_state = PomodoroState.ShortBreak ∧
     (StateTracker.new.start_work 0).2 =
       [Clock.new.set_time_minutes 25, Clock.new.set_time_minutes 5] ∧
     (Clock.new.set_time_minutes 5).get_time = "05:00") ∧
    (((StateTracker.mk (some 3) PomodoroState.None none).start_work 0).1.current_order = some 4 ∧
     ((StateTracker.mk (some 3) PomodoroState.None none).start_work 0).1.current_state = PomodoroState.LongBreak ∧
     ((StateTracker.mk (some 3) PomodoroState.None none).start_work 0).2 =
       [Clock.new.set_time_minutes 25, Clock.new.set_time_minutes 30] ∧
     (Clock.new.set_time_minutes 30).get_time = "30:00") :=
  ⟨(start_work_end_to_end StateTracker.new 0).1 rfl,
   (start_work_end_to_end (StateTracker.mk (some 3) PomodoroState.None none) 0).2 rfl⟩

/-- One `increment_cycle` step preserves the position range. -/
theorem increment_cycle_preserves_range (t : StateTracker)
    (h : t.current_order = none ∨
      ∃ k : Int, t.current_order = some k ∧ 1 ≤ k ∧ k ≤ 4) :
    t.increment_cycle.current_order = none ∨
      ∃ k : Int, t.increment_cycle.current_order = some k ∧ 1 ≤ k ∧ k ≤ 4 := by
  rcases h with h0 | ⟨k, hk, h1, h4⟩
  · right
    exact ⟨1, by simp [StateTracker.increment_cycle, h0], by norm_num, by norm_num⟩
  · by_cases hlt : k < 4
    · right
      exact ⟨k + 1, by simp [StateTracker.increment_cycle, hk, hlt],
        by omega, by omega⟩
    · left
      simp only [StateTracker.increment_cycle, hk]
      rw [if_neg hlt]

/-- C7: in every tracker state reachable from `StateTracker::new` by any
sequence of `increment_cycle`, `restart_cycle`, `set_break` and
`start_work`, the position is either unset or an integer in {1,2,3,4} —
never below 1 and never above 4. -/
theorem reachable_position_in_range (t : StateTracker) (h : ReachableTracker t) :
    t.current_order = none ∨
      ∃ k : Int, t.current_order = some k ∧ 1 ≤ k ∧ k ≤ 4 := by
  induction h with
  | base => left; rfl
  | increment t' h ih => exact increment_cycle_preserves_range t' ih
  | restart t' h ih => left; rfl
  | setBreak t' h ih => exact ih
  | work t' now h ih =>
      rw [start_work_order]
      exact increment_cycle_preserves_range t' ih

/-- Witness for `reachable_position_in_range` after one increment. -/
theorem reachable_position_in_range_witness :
    StateTracker.new.increment_cycle.current_order = none ∨
      ∃ k : Int, StateTracker.new.increment_cycle.current_order = some k ∧
        1 ≤ k ∧ k ≤ 4 :=
  reachable_position_in_range _ (ReachableTracker.increment _ ReachableTracker.base)
